import Mathlib

/-!
Shallow embedding of the vSphere session/provider layer of vm-operator
(`pkg/vmprovider/providers/vsphere/session.go`, which contains both the
`Session` lifecycle code and the `VSphereVmProvider` facade), together with
proofs about its specified behaviour.

Modelling conventions:
* Machine integers (`int64`, `int32`) are modelled as `Int`; where 32-bit
  truncation can matter (`int32` casts and the decrementing temporary device
  key) we apply `int32wrap`, the two's-complement wrap to 32 bits.
* The `float64` pipeline of `memoryQuantityToMb` / `cpuQuantityToMhz`
  (`int64 → float64` conversion, division, `math.Ceil`, `int64` conversion)
  is modelled exactly for the memory case: conversion of an `int64` to
  `float64` is round-to-nearest(-even) to a 53-bit significand
  (`round53Int`); division of the resulting double by `2^20` is exact in
  IEEE 754 (it only shifts the exponent; no overflow or subnormals occur for
  `int64` magnitudes), so `math.Ceil` then computes the exact ceiling of
  `round53Int v / 2^20`, an integer of magnitude at most `2^44`, which the
  final `int64` conversion returns unchanged.
* Calls into govmomi / NCP / the `resources` and `sequence` packages (which
  are external, or repository code that is not part of the sources being
  verified) are modelled as environment-snapshot fields on `Session` /
  `RemoteVM`: each such field records the outcome that call would produce.
* Effectful lifecycle functions additionally return a trace
  (`List BackendOp`) of the backend operations they issued, so that
  never-invoked / only-after properties can be stated.
-/

namespace VmOp

/-! ## Basic integer arithmetic used by the source -/

/-- Two's-complement wrap of an integer to the `int32` range
`[-2147483648, 2147483647]`; Go's `int32(x)` conversion and `int32`
overflow semantics. -/
def int32wrap (v : Int) : Int := (v + 2147483648) % 4294967296 - 2147483648

/-- Number of low-order bits an IEEE-754 `float64` cannot keep of the
natural number `n`: halve until below `2^53` (= 9007199254740992).  The
fuel (first argument) is 64, enough for any `int64` magnitude. -/
def dropBits : Nat → Nat → Nat
  | 0, _ => 0
  | f+1, n => if n < 9007199254740992 then 0 else dropBits f (n / 2) + 1

/-- Round-to-nearest-even of an `int64` value to a 53-bit significand: the
exact integer value of Go's `float64(v)` conversion.  Values of magnitude
at most `2^53` are exactly representable and unchanged. -/
def round53Int (v : Int) : Int :=
  if v.natAbs ≤ 9007199254740992 then v
  else
    let n := v.natAbs
    let e := dropBits 64 n
    let q := n / 2 ^ e
    let r := n % 2 ^ e
    let half := 2 ^ (e - 1)
    let q2 := if half < r then q + 1 else if r < half then q
              else if q % 2 = 0 then q else q + 1
    (if v < 0 then -1 else 1) * (q2 * 2 ^ e)

/-- Exact ceiling division of integers (for positive divisor). -/
def ceilDivInt (a b : Int) : Int := -(Int.fdiv (-a) b)

/-- `memoryQuantityToMb` (session.go): `int64(math.Ceil(float64(q.Value()) /
float64(1024*1024)))`.  `float64(v)` is `round53Int v`; dividing the
resulting double by `2^20` is exact (power-of-two scaling), so `math.Ceil`
yields the exact ceiling of `round53Int v / 2^20`, which the `int64`
conversion returns unchanged. -/
def memoryQuantityToMb (v : Int) : Int := ceilDivInt (round53Int v) 1048576

/-- `cpuQuantityToMhz` (session.go): `int64(math.Ceil(float64(q.Value()) /
float64(1000*1000)))`.  The divisor `10^6` is not a power of two, so the
float division additionally rounds its quotient to 53 bits; that extra
rounding is not modelled here (it can only matter for quantities above
roughly `2^53`), and no claim in this development depends on this
function's value. -/
def cpuQuantityToMhz (v : Int) : Int := ceilDivInt (round53Int v) 1000000

/-! ## Data model (desired spec, status, devices, descriptors) -/

/-- Errors as they flow through the Go code.  Constructors mirror the
dynamic types the source distinguishes: `find.NotFoundError` /
`find.MultipleFoundError` (matched by `transformError` and the list/exists
paths), the `k8serror.NewNotFound` value `transformError` produces, errors
wrapped with a context message (`errors.Wrapf`), and everything else. -/
inductive GoError where
  | notFound (msg : String)
  | multipleFound (msg : String)
  | k8sNotFound (kind resource : String)
  | wrapped (msg : String) (cause : GoError)
  | other (msg : String)
  deriving DecidableEq, Repr

/-- Outcome of a `Finder.VirtualMachine` lookup in the current backend
snapshot.  `found` carries an index into the session's remote-VM table. -/
inductive LookupOutcome where
  | found (vmIdx : Nat)
  | notFound (msg : String)
  | multipleFound (msg : String)
  | otherError (msg : String)

/-- One virtual hardware device of a remote VM, as far as the claims need
it: its device key and (for ethernet cards) its backing. -/
structure VirtualDevice where
  key : Int
  backing : Option Nat
  deriving DecidableEq, Repr

/-- The three `VirtualDeviceConfigSpecOperation` values used. -/
inductive DeviceOp where
  | add
  | edit
  | remove
  deriving DecidableEq, Repr

/-- One `VirtualDeviceConfigSpec`: an add/edit/remove of one device, with
the storage-profile and file-operation fields set by
`processStorageClass`. -/
structure DeviceChange where
  operation : DeviceOp
  device : VirtualDevice
  profile : Option String := none
  fileOperation : String := ""
  deriving DecidableEq, Repr

/-- `v1alpha1.VirtualMachineNetworkInterface`: one desired interface. -/
structure NetworkInterfaceSpec where
  networkName : String
  networkType : String
  deriving DecidableEq, Repr

/-- `v1alpha1.VirtualMachineMetadata` (the `VmMetadata` spec field):
bootstrap-metadata transport selector. -/
structure VmMetadataSpec where
  transport : String
  deriving DecidableEq, Repr

/-- Modelled from the spec: `v1alpha1.VirtualMachinePoweredOn` (the typed
API constants are not part of the sources being verified); the power-state
string meaning "powered on". -/
def VirtualMachinePoweredOn : String := "poweredOn"

/-- Modelled from the spec: the NSX-T network-type constant
(`NsxtNetworkType`, defined in the network-provider file, which is not
part of the sources being verified).  Its exact value is immaterial; it
only needs to differ from the empty string. -/
def NsxtNetworkType : String := "nsx-t"

/-- `v1alpha1.VirtualMachineSpec`: the desired-state fields this layer
reads. -/
structure VirtualMachineSpec where
  imageName : String
  powerState : String
  networkInterfaces : List NetworkInterfaceSpec
  vmMetadata : Option VmMetadataSpec
  deriving DecidableEq, Repr

/-- Modelled from the spec: `v1alpha1.VirtualMachineStatus` (the typed API
object definitions are not part of the sources being verified).  Per the
spec's status surface it records lifecycle phase plus the backend-observed
fields: power state, unique backend identifier, internal reference string,
host and network address. -/
structure VirtualMachineStatus where
  phase : String
  powerState : String
  uniqueID : String
  internalId : String
  host : String
  vmIp : String
  deriving DecidableEq, Repr

/-- `v1alpha1.VirtualMachine`: name, namespace, desired spec, status, and
the annotations of its object metadata. -/
structure VirtualMachine where
  name : String
  nspace : String
  spec : VirtualMachineSpec
  status : VirtualMachineStatus
  annotations : List (String × String) := []
  deriving DecidableEq, Repr

/-- `NamespacedName()`: `namespace + "/" + name`. -/
def VirtualMachine.namespacedName (vm : VirtualMachine) : String :=
  vm.nspace ++ "/" ++ vm.name

/-- `v1alpha1.VirtualMachineClassSpec`: hardware counts and resource
policies.  Each `resource.Quantity` is modelled by its `Value()` (an
`int64`); `Quantity.IsZero()` is `= 0`. -/
structure VirtualMachineClassSpec where
  hardwareCpus : Int
  hardwareMemory : Int
  requestsCpu : Int
  requestsMemory : Int
  limitsCpu : Int
  limitsMemory : Int
  deriving DecidableEq, Repr

/-- `vimTypes.VirtualMachineConfigSpec`: the configuration descriptor
built by `configSpecFromClassSpec` (reservation/limit fields are `none`
when unset, mirroring the nil pointers). -/
structure VirtualMachineConfigSpec where
  name : String
  numCPUs : Int
  memoryMB : Int
  cpuReservation : Option Int := none
  cpuLimit : Option Int := none
  memoryReservation : Option Int := none
  memoryLimit : Option Int := none
  extraConfig : List (String × String) := []
  annotationStr : String := ""
  deviceChange : List DeviceChange := []
  files : Option String := none
  deriving DecidableEq, Repr

/-- Result of `computeVMPlacement` (defined outside the verified sources):
recommended host and datastore references. -/
structure PlacementResult where
  host : Option String
  datastore : Option String
  deriving DecidableEq, Repr

/-- `vimTypes.VirtualMachineCloneSpec` as populated by `getCloneSpec`. -/
structure VirtualMachineCloneSpec where
  config : VirtualMachineConfigSpec
  powerOn : Bool
  memory : Bool
  locationPool : String
  locationProfile : Option String
  locationDeviceChange : List DeviceChange
  locationFolder : String
  locationHost : Option String
  locationDatastore : Option String
  deriving DecidableEq, Repr

/-- A NCP `VirtualNetworkInterface` IP configuration entry. -/
structure VnetIfIP where
  ip : String
  subnetMask : String
  gateway : String
  deriving DecidableEq, Repr

/-- Status of a NCP `VirtualNetworkInterface` once its network assignment
is available. -/
structure VnetIf where
  macAddress : String
  ipAddresses : List VnetIfIP
  deriving DecidableEq, Repr

/-- One `CustomizationAdapterMapping` of a guest-customization spec. -/
structure CustomizationAdapterMapping where
  macAddress : String
  ip : String
  subnetMask : String
  gateway : String
  deriving DecidableEq, Repr

/-- `vimTypes.CustomizationSpec` as built by `getCustomizationSpecs`. -/
structure CustomizationSpec where
  hostName : String
  nicSettingMap : List CustomizationAdapterMapping
  deriving DecidableEq, Repr

/-- A content-library item (`library.Item`): id, name, type. -/
structure LibraryItem where
  id : String
  name : String
  itemType : String
  deriving DecidableEq, Repr

/-- `v1alpha1.VirtualMachineImage` as built from a library item. -/
structure VirtualMachineImage where
  name : String
  nspace : String
  annotations : List (String × String)
  uuid : String
  internalId : String
  specType : String
  imageSourceType : String
  deriving DecidableEq, Repr

/-- Backend operations issued by the session/provider layer, recorded as a
trace.  `enterCreateFromScratch` / `enterCloneVirtualMachine` are
instrumentation markers emitted exactly when the provider invokes
`Session.CreateVirtualMachine` resp. `Session.CloneVirtualMachine`. -/
inductive BackendOp where
  | enterCreateFromScratch
  | enterCloneVirtualMachine
  | lookupVm (name : String)
  | createVm (name : String)
  | cloneVm (name : String)
  | deployOvf (itemId name : String)
  | reconfigure
  | setPowerState (state : String)
  | customize
  | deleteSeq
  deriving DecidableEq, Repr

/-- A remote VM object as an environment snapshot: the name of the backend
object plus the outcome each of its (`resources`-package wrapped) method
calls would produce in the current backend state. -/
structure RemoteVM where
  name : String
  referenceValue : String
  getNetworkDevices : Except GoError (List VirtualDevice)
  getStatus : Except GoError VirtualMachineStatus
  reconfigureResult : Option GoError
  setPowerResult : String → Option GoError
  customizeResult : Option GoError
  deleteSeqResult : Option GoError
  diskConfigSpecs : Except GoError (List DeviceChange)

/-- The network providers `getNetworkProviderByType` can return. -/
inductive NetworkProviderKind where
  | nsxt
  | defaultNet
  deriving DecidableEq, Repr

/-- `Session`: the pre-resolved per-tenant context (default network,
content library, global extra config, folder / resource pool / datastore
references) together with the environment snapshot of every external call
the session code makes (govmomi finder and REST calls, NCP waits,
placement, clone/deploy outcomes). -/
structure Session where
  networkBackingInfo : Option (Except GoError Nat)
  contentlib : Option String
  extraConfig : Option (List (String × String))
  datastoreName : String
  resourcepoolRef : String
  folderRef : String
  vms : Nat → RemoteVM
  finderVm : String → LookupOutcome
  createVnic : NetworkProviderKind → VirtualMachine → NetworkInterfaceSpec →
      Except GoError VirtualDevice
  waitForVnetIf : String → String → String → Except GoError VnetIf
  findLibraryItems : String → Except GoError (List String)
  getLibraryItem : String → Except GoError LibraryItem
  fetchOvfProperties : LibraryItem → Except GoError (List (String × String))
  deployLibraryItem : String → String → String → Except GoError String
  objectReference : String → Except GoError RemoteVM
  createVmResult : Except GoError RemoteVM
  cloneVmResult : Except GoError RemoteVM
  placementResult : Except GoError PlacementResult

/-- `Session.lookupVm`: `Finder.VirtualMachine` followed by
`res.NewVMFromObject` (which cannot fail).  The finder's typed errors pass
through untranslated. -/
def lookupVm (s : Session) (name : String) : Except GoError RemoteVM :=
  match s.finderVm name with
  | .found i => .ok (s.vms i)
  | .notFound m => .error (.notFound m)
  | .multipleFound m => .error (.multipleFound m)
  | .otherError m => .error (.other m)

/-! ## Session — device diffing and configuration descriptor -/

/-- `getNetworkProviderByType`: NSX-T for `NsxtNetworkType`, the default
provider for the empty string, otherwise an unsupported-network-type
error. -/
def getNetworkProviderByType (networkType : String) :
    Except GoError NetworkProviderKind :=
  if networkType = NsxtNetworkType then .ok .nsxt
  else if networkType = "" then .ok .defaultNet
  else .error (.other ("failed to create network provider for network type '" ++
    networkType ++ "'"))

/-- Modelled from the spec: `setVnicKey` (defined in the network-provider
file, which is not part of the sources being verified) assigns the given
temporary device key to the new device. -/
def setVnicKey (dev : VirtualDevice) (key : Int) : VirtualDevice :=
  { dev with key := key }

/-- The loop body of `deviceSpecsFromVM`: for each desired interface,
resolve the network provider, create the vnic, assign the current
temporary key and emit an `add` change; the `int32` key is decremented
(with 32-bit wrap) per interface. -/
def deviceSpecsLoop (s : Session) (vm : VirtualMachine) (key : Int) :
    List NetworkInterfaceSpec → Except GoError (List DeviceChange)
  | [] => .ok []
  | vif :: rest =>
    match getNetworkProviderByType vif.networkType with
    | .error e => .error (.wrapped "failed to get network provider" e)
    | .ok np =>
      match s.createVnic np vm vif with
      | .error e => .error (.wrapped "failed to create vnic" e)
      | .ok dev =>
        match deviceSpecsLoop s vm (int32wrap (key - 1)) rest with
        | .error e => .error e
        | .ok tail => .ok ({ operation := .add, device := setVnicKey dev key } :: tail)

/-- `Session.deviceSpecsFromVM`: build the add-device changes for the
spec's network interfaces, temporary keys starting at `-100`. -/
def deviceSpecsFromVM (s : Session) (vm : VirtualMachine) :
    Except GoError (List DeviceChange) :=
  deviceSpecsLoop s vm (-100) vm.spec.networkInterfaces

/-- The edit loop of `deviceChangeSpecs` for the zero-interface case: each
existing network device gets the default network's backing and an `edit`
change.  `EthernetCardBackingInfo` is re-queried per device (same outcome
each time in one snapshot), so an empty device list performs no query. -/
def editBackingLoop (backingInfo : Except GoError Nat) :
    List VirtualDevice → Except GoError (List DeviceChange)
  | [] => .ok []
  | dev :: rest =>
    match backingInfo with
    | .error e => .error (.wrapped "unable to create new ethernet card backing info" e)
    | .ok b =>
      match editBackingLoop backingInfo rest with
      | .error e => .error e
      | .ok tail => .ok ({ operation := .edit, device := { dev with backing := some b } } :: tail)

/-- `Session.deviceChangeSpecs`: diff the desired interfaces against the
remote VM's existing network devices.  Zero desired interfaces: leave
devices alone, unless a default network is configured, in which case each
existing device's backing is updated in place (`edit`).  At least one
desired interface: `remove` every existing device, then `add` the newly
built set. -/
def deviceChangeSpecs (s : Session) (vm : VirtualMachine) (resSrcVm : RemoteVM) :
    Except GoError (List DeviceChange) :=
  match resSrcVm.getNetworkDevices with
  | .error e => .error e
  | .ok netDevices =>
    if vm.spec.networkInterfaces.length = 0 then
      match s.networkBackingInfo with
      | none => .ok []
      | some backingInfo => editBackingLoop backingInfo netDevices
    else
      match deviceSpecsFromVM s vm with
      | .error e => .error e
      | .ok addDeviceSpecs =>
        .ok ((netDevices.map fun dev => { operation := .remove, device := dev }) ++
          addDeviceSpecs)

/-- `GetExtraConfig`: merge the VM-specified metadata with the global extra
config; VM entries override global ones.  Go emits the merged map's entries
in unspecified order; we model the resulting key-to-value mapping as the
canonical list: global entries not overridden, then the VM entries. -/
def GetExtraConfig (vmSpecMeta : List (String × String)) :
    Option (List (String × String)) → List (String × String)
  | none => vmSpecMeta
  | some globalMeta =>
    (globalMeta.filter fun kv => vmSpecMeta.all fun kv2 => kv2.1 ≠ kv.1) ++ vmSpecMeta

/-- `Session.configSpecFromClassSpec`: build the configuration descriptor
from the class hardware/policies, the bootstrap metadata and the device
changes.  Reservation/limit fields are set only for non-zero quantities;
only the `"ExtraConfig"` metadata transport is supported. -/
def configSpecFromClassSpec (s : Session) (name : String)
    (vmSpec : VirtualMachineSpec) (vmClassSpec : VirtualMachineClassSpec)
    (metadata : List (String × String)) (deviceSpecs : List DeviceChange) :
    Except GoError VirtualMachineConfigSpec :=
  let base : VirtualMachineConfigSpec := {
    name := name
    numCPUs := int32wrap vmClassSpec.hardwareCpus
    memoryMB := memoryQuantityToMb vmClassSpec.hardwareMemory
    cpuReservation := if vmClassSpec.requestsCpu = 0 then none
      else some (cpuQuantityToMhz vmClassSpec.requestsCpu)
    cpuLimit := if vmClassSpec.limitsCpu = 0 then none
      else some (cpuQuantityToMhz vmClassSpec.limitsCpu)
    memoryReservation := if vmClassSpec.requestsMemory = 0 then none
      else some (memoryQuantityToMb vmClassSpec.requestsMemory)
    memoryLimit := if vmClassSpec.limitsMemory = 0 then none
      else some (memoryQuantityToMb vmClassSpec.limitsMemory)
    annotationStr := "Virtual Machine managed by VM Operator"
    deviceChange := deviceSpecs }
  match vmSpec.vmMetadata with
  | some md =>
    if md.transport = "ExtraConfig" then
      .ok { base with extraConfig := GetExtraConfig metadata s.extraConfig }
    else
      .error (.other ("unsupported metadata transport " ++ md.transport))
  | none => .ok base

/-! ## Session — guest customization and content-library images -/

/-- The vnif-collection loop of `getCustomizationSpecs`: for each desired
interface of NSX-T type, block until its network assignment is available
(the wait itself lives in the network-provider file, outside the verified
sources; its outcome is a session snapshot field). -/
def collectVnifs (s : Session) (nspace vmName : String) :
    List NetworkInterfaceSpec → Except GoError (List VnetIf)
  | [] => .ok []
  | nif :: rest =>
    if nif.networkType = NsxtNetworkType then
      match s.waitForVnetIf nspace nif.networkName vmName with
      | .error e => .error e
      | .ok vnetif =>
        match collectVnifs s nspace vmName rest with
        | .error e => .error e
        | .ok tail => .ok (vnetif :: tail)
    else collectVnifs s nspace vmName rest

/-- The NIC-mapping loop of `getCustomizationSpecs`: interfaces without
exactly one resolved IP address are skipped (warning, not failure). -/
def nicMappings : List VnetIf → List CustomizationAdapterMapping
  | [] => []
  | vnetif :: rest =>
    match vnetif.ipAddresses with
    | [ipc] => { macAddress := vnetif.macAddress, ip := ipc.ip,
                 subnetMask := ipc.subnetMask, gateway := ipc.gateway } :: nicMappings rest
    | _ => nicMappings rest

/-- `Session.getCustomizationSpecs`: build the guest-customization payload
for NSX-T interfaces; `none` when no NSX-T interface is desired. -/
def getCustomizationSpecs (s : Session) (nspace vmName : String)
    (vmSpec : VirtualMachineSpec) : Except GoError (Option CustomizationSpec) :=
  match collectVnifs s nspace vmName vmSpec.networkInterfaces with
  | .error e => .error e
  | .ok [] => .ok none
  | .ok vnifs => .ok (some { hostName := vmName, nicSettingMap := nicMappings vnifs })

/-- `IsSupportedDeployType`: only `"ovf"` library items can be deployed. -/
def IsSupportedDeployType (t : String) : Bool := t = "ovf"

/-- `LibItemToVirtualMachineImage`: build a `VirtualMachineImage` from a
library item; with annotation requested, the OVF properties are fetched
(REST download, outside the verified sources) and attached. -/
def LibItemToVirtualMachineImage (s : Session) (item : LibraryItem)
    (nspace : String) (annotate : Bool) : Except GoError VirtualMachineImage :=
  match (if annotate then s.fetchOvfProperties item else .ok []) with
  | .error e => .error e
  | .ok props =>
    .ok { name := item.name, nspace := nspace, annotations := props,
          uuid := item.id, internalId := item.name, specType := item.itemType,
          imageSourceType := "Content Library" }

/-- `Session.GetVirtualMachineImageFromCL`: find the named library item
(first match when several ids are returned), require a supported deploy
type, and build the annotated image.  The surrounding scoped REST
login/logout is a resource concern and not modelled. -/
def GetVirtualMachineImageFromCL (s : Session) (name nspace : String) :
    Except GoError VirtualMachineImage :=
  match s.findLibraryItems name with
  | .error e => .error e
  | .ok [] => .error (.other ("item: " ++ name ++ " is not found in CL"))
  | .ok (id0 :: _) =>
    match s.getLibraryItem id0 with
    | .error e => .error e
    | .ok item =>
      if IsSupportedDeployType item.itemType then
        LibItemToVirtualMachineImage s item nspace true
      else .error (.other ("item: " ++ item.name ++ " not a supported type"))

/-! ## Session — lifecycle operations (create / clone / delete) -/

/-- `Session.createVm`: set the datastore path on the descriptor, create
the VM in the resolved folder/resource pool, then unconditionally power it
on. -/
def createVm (s : Session) (name : String) (configSpec : VirtualMachineConfigSpec) :
    (Except GoError RemoteVM) × List BackendOp :=
  let _configSpec := { configSpec with files := some ("[" ++ s.datastoreName ++ "]") }
  match s.createVmResult with
  | .error e => (.error e, [.createVm name])
  | .ok resVm =>
    match resVm.setPowerResult VirtualMachinePoweredOn with
    | some e => (.error e, [.createVm name, .setPowerState VirtualMachinePoweredOn])
    | none => (.ok resVm, [.createVm name, .setPowerState VirtualMachinePoweredOn])

/-- `Session.CreateVirtualMachine` (create-from-scratch): device adds,
configuration descriptor, then `createVm`; any `createVm` failure is
wrapped with the VM name. -/
def sessionCreateVirtualMachine (s : Session) (vm : VirtualMachine)
    (vmClassSpec : VirtualMachineClassSpec) (vmMetadata : List (String × String)) :
    (Except GoError RemoteVM) × List BackendOp :=
  match deviceSpecsFromVM s vm with
  | .error e => (.error e, [])
  | .ok deviceSpecs =>
    match configSpecFromClassSpec s vm.name vm.spec vmClassSpec vmMetadata deviceSpecs with
    | .error e => (.error e, [])
    | .ok configSpec =>
      match createVm s vm.name configSpec with
      | (.error e, t) => (.error (.wrapped ("failed to create new VM " ++ vm.name) e), t)
      | (.ok resVm, t) => (.ok resVm, t)

/-- `processStorageClass`: with a storage profile, re-emit the source VM's
disks as `edit` changes carrying the profile and an empty file
operation.  (`GetVirtualDisks` + `ConfigSpec` live in the `resources`
package, outside the verified sources; their outcome is the
`diskConfigSpecs` snapshot field.) -/
def processStorageClass (resSrcVm : RemoteVM) (profileID : String) :
    Except GoError (List DeviceChange × Option String) :=
  if profileID = "" then .ok ([], none)
  else
    match resSrcVm.diskConfigSpecs with
    | .error e => .error e
    | .ok vdcs =>
      .ok (vdcs.map (fun cs => { cs with profile := some profileID, fileOperation := "" }),
        some profileID)

/-- `Session.getCloneSpec`: storage-profile disk edits, network device
diff, configuration descriptor (with `nil` device changes), power-on
intent, then placement; populates the clone spec's location. -/
def getCloneSpec (s : Session) (name : String) (resSrcVm : RemoteVM)
    (vm : VirtualMachine) (vmClassSpec : VirtualMachineClassSpec)
    (vmMetadata : List (String × String)) (profileID : String) :
    Except GoError VirtualMachineCloneSpec :=
  match processStorageClass resSrcVm profileID with
  | .error e => .error e
  | .ok (vdcs, vmProfile) =>
    match deviceChangeSpecs s vm resSrcVm with
    | .error e => .error e
    | .ok deviceSpecs =>
      match configSpecFromClassSpec s name vm.spec vmClassSpec vmMetadata [] with
      | .error e => .error e
      | .ok configSpec =>
        match s.placementResult with
        | .error e => .error e
        | .ok rSpec =>
          .ok { config := configSpec
                powerOn := vm.spec.powerState = VirtualMachinePoweredOn
                memory := false
                locationPool := s.resourcepoolRef
                locationProfile := vmProfile
                locationDeviceChange := deviceSpecs ++ vdcs
                locationFolder := s.folderRef
                locationHost := rSpec.host
                locationDatastore := rSpec.datastore }

/-- `Session.cloneVm`: issue the backend clone. -/
def cloneVm (s : Session) (name : String) (_cloneSpec : VirtualMachineCloneSpec) :
    (Except GoError RemoteVM) × List BackendOp :=
  match s.cloneVmResult with
  | .error e => (.error e, [.cloneVm name])
  | .ok resVm => (.ok resVm, [.cloneVm name])

/-- `Session.deployOvf`: deploy the library item (REST, scoped login/logout
not modelled), then resolve the returned reference to a VM object. -/
def deployOvf (s : Session) (itemID vmName profileID : String) :
    (Except GoError RemoteVM) × List BackendOp :=
  match s.deployLibraryItem itemID vmName profileID with
  | .error e => (.error e, [.deployOvf itemID vmName])
  | .ok moref =>
    match s.objectReference moref with
    | .error e => (.error e, [.deployOvf itemID vmName])
    | .ok deployedVM => (.ok deployedVM, [.deployOvf itemID vmName])

/-- `Session.CloneVirtualMachine`: with a configured content library,
resolve the image and deploy it, then reconfigure the deployed VM with the
desired network-device diff; without one, look the image up as an existing
VM by name and issue a full clone from `getCloneSpec`. -/
def sessionCloneVirtualMachine (s : Session) (vm : VirtualMachine)
    (vmClassSpec : VirtualMachineClassSpec) (vmMetadata : List (String × String))
    (profileID : String) : (Except GoError RemoteVM) × List BackendOp :=
  match s.contentlib with
  | some _ =>
    (match GetVirtualMachineImageFromCL s vm.spec.imageName vm.nspace with
     | .error e => (.error e, [])
     | .ok image =>
       match deployOvf s image.uuid vm.name profileID with
       | (.error e, t) =>
         (.error (.wrapped ("failed to deploy new VM " ++ vm.name ++ " from " ++
           vm.spec.imageName) e), t)
       | (.ok deployedVm, t) =>
         match deviceChangeSpecs s vm deployedVm with
         | .error e =>
           (.error (.wrapped ("failed to generate device change spec for VM " ++ vm.name) e), t)
         | .ok deviceSpecs =>
           let _reconfigSpec : VirtualMachineConfigSpec :=
             { name := "", numCPUs := 0, memoryMB := 0, deviceChange := deviceSpecs }
           match deployedVm.reconfigureResult with
           | some e =>
             (.error (.wrapped ("failed to reconfigure VM " ++ vm.name) e), t ++ [.reconfigure])
           | none => (.ok deployedVm, t ++ [.reconfigure]))
  | none =>
    match lookupVm s vm.spec.imageName with
    | .error e => (.error e, [.lookupVm vm.spec.imageName])
    | .ok resSrcVm =>
      match getCloneSpec s vm.name resSrcVm vm vmClassSpec vmMetadata profileID with
      | .error e =>
        (.error (.wrapped ("failed to create clone spec from " ++ resSrcVm.name) e),
          [.lookupVm vm.spec.imageName])
      | .ok cloneSpec =>
        match cloneVm s vm.name cloneSpec with
        | (.error e, t) =>
          (.error (.wrapped ("failed to clone new VM " ++ vm.name ++ " from " ++
            resSrcVm.name) e), .lookupVm vm.spec.imageName :: t)
        | (.ok cloneResVm, t) => (.ok cloneResVm, .lookupVm vm.spec.imageName :: t)

/-! ## Provider facade — error translation, status merge, lifecycle -/

/-- Modelled from the spec: the resource kind carried by the typed
not-found error (`vmoperator.InternalVirtualMachine.GetKind()`; the apis
package is not part of the sources being verified). -/
def internalVirtualMachineKind : String := "VirtualMachine"

/-- `transformError`: translate govmomi lookup errors to typed domain
errors — `NotFound` becomes a Kubernetes not-found error carrying kind and
resource; `MultipleFound` (and everything else) passes through. -/
def transformError (resourceType resource : String) (err : GoError) : GoError :=
  match err with
  | .notFound _ => .k8sNotFound resourceType resource
  | .multipleFound m => .multipleFound m
  | e => e

/-- `transformVmError`: `transformError` for the VirtualMachine kind. -/
def transformVmError (resource : String) (err : GoError) : GoError :=
  transformError internalVirtualMachineKind resource err

/-- `VSphereVmProvider.mergeVmStatus`: fetch the remote VM's observed
status, overwrite its `Phase` with the phase already present in the spec's
status, and deep-copy the result into the spec's status. -/
def mergeVmStatus (vm : VirtualMachine) (resVm : RemoteVM) :
    Except GoError VirtualMachine :=
  match resVm.getStatus with
  | .error e => .error (.wrapped "unable to get VirtualMachine status" e)
  | .ok vmStatus =>
    .ok { vm with status := { vmStatus with phase := vm.status.phase } }

/-- Update an association list at a key (last-writer-wins view of a Go map
assignment). -/
def setAnn (anns : List (String × String)) (k v : String) : List (String × String) :=
  (anns.filter fun kv => kv.1 ≠ k) ++ [(k, v)]

/-- Modelled from the spec: annotation keys (`pkg.VmOperatorVmProviderKey`,
`VmOperatorMoRefKey`; the pkg constants file is not part of the sources
being verified). -/
def VmOperatorVmProviderKey : String := "vmoperator.vmware.com/vm-provider"

/-- Modelled from the spec: the managed-object-reference annotation key. -/
def VmOperatorMoRefKey : String := "vmoperator.vmware.com/moref"

/-- `VSphereVmProvider.addProviderAnnotations`: record provider name and
backend object reference on the object's metadata. -/
def addProviderAnnotations (vm : VirtualMachine) (resVm : RemoteVM) : VirtualMachine :=
  let anns := setAnn (setAnn vm.annotations VmOperatorVmProviderKey "vsphere") VmOperatorMoRefKey resVm.referenceValue
  { vm with annotations := anns }

/-- `VSphereVmProvider.reconfigureVm`: apply the configuration descriptor
to the remote VM. -/
def reconfigureVm (resVm : RemoteVM) (_configSpec : VirtualMachineConfigSpec) :
    Option GoError × List BackendOp :=
  (resVm.reconfigureResult, [.reconfigure])

/-- `VSphereVmProvider.updatePowerState`: apply the desired power state,
defaulting to powered-on when the spec leaves it empty. -/
def updatePowerState (vm : VirtualMachine) (resVm : RemoteVM) :
    Option GoError × List BackendOp :=
  let powerState := if vm.spec.powerState = "" then VirtualMachinePoweredOn
    else vm.spec.powerState
  match resVm.setPowerResult powerState with
  | some e => (some (.wrapped ("failed to set power state to " ++ powerState) e),
      [.setPowerState powerState])
  | none => (none, [.setPowerState powerState])

/-- `VSphereVmProvider.updateVm`: reconfigure, and only on success proceed
to the power-state transition; a reconfigure error is returned as-is. -/
def updateVm (vm : VirtualMachine) (configSpec : VirtualMachineConfigSpec)
    (resVm : RemoteVM) : Option GoError × List BackendOp :=
  match reconfigureVm resVm configSpec with
  | (none, t) =>
    match updatePowerState vm resVm with
    | (r, t2) => (r, t ++ t2)
  | (some e, t) => (some e, t)

/-- The tail of `VSphereVmProvider.CreateVirtualMachine` after a resource
VM exists: optional NSX-T guest customization, status merge, provider
annotations. -/
def providerCreateFinish (s : Session) (vm : VirtualMachine) (resVm : RemoteVM) :
    (Except GoError VirtualMachine) × List BackendOp :=
  match getCustomizationSpecs s vm.nspace vm.name vm.spec with
  | .error e => (.error e, [])
  | .ok ospec =>
    let (custErr, custTrace) :=
      match ospec with
      | none => (none, [])
      | some _ =>
        match resVm.customizeResult with
        | some e => (some (transformVmError vm.namespacedName e), [BackendOp.customize])
        | none => (none, [BackendOp.customize])
    match custErr with
    | some e => (.error e, custTrace)
    | none =>
      match mergeVmStatus vm resVm with
      | .error e => (.error (transformVmError vm.namespacedName e), custTrace)
      | .ok vm2 => (.ok (addProviderAnnotations vm2 resVm), custTrace)

/-- `VSphereVmProvider.CreateVirtualMachine`: create from scratch when the
spec names no image, otherwise clone/deploy; then customization, status
merge and annotations.  Errors from the create/clone step are translated
by `transformVmError`. -/
def providerCreateVirtualMachine (s : Session) (vm : VirtualMachine)
    (vmClassSpec : VirtualMachineClassSpec) (vmMetadata : List (String × String))
    (profileID : String) : (Except GoError VirtualMachine) × List BackendOp :=
  let (r, t) :=
    if vm.spec.imageName = "" then
      match sessionCreateVirtualMachine s vm vmClassSpec vmMetadata with
      | (r, t) => (r, BackendOp.enterCreateFromScratch :: t)
    else
      match sessionCloneVirtualMachine s vm vmClassSpec vmMetadata profileID with
      | (r, t) => (r, BackendOp.enterCloneVirtualMachine :: t)
  match r with
  | .error e => (.error (transformVmError vm.namespacedName e), t)
  | .ok resVm =>
    match providerCreateFinish s vm resVm with
    | (r2, t2) => (r2, t ++ t2)

/-- `VSphereVmProvider.UpdateVirtualMachine`: look the VM up, recompute the
device diff and descriptor, apply them via `updateVm`, then merge status.
Every error is translated by `transformVmError`. -/
def providerUpdateVirtualMachine (s : Session) (vm : VirtualMachine)
    (vmClassSpec : VirtualMachineClassSpec) (vmMetadata : List (String × String)) :
    (Except GoError VirtualMachine) × List BackendOp :=
  match lookupVm s vm.name with
  | .error e => (.error (transformVmError vm.namespacedName e), [.lookupVm vm.name])
  | .ok resVm =>
    match deviceChangeSpecs s vm resVm with
    | .error e => (.error (transformVmError vm.namespacedName e), [.lookupVm vm.name])
    | .ok deviceSpecs =>
      match configSpecFromClassSpec s vm.name vm.spec vmClassSpec vmMetadata deviceSpecs with
      | .error e => (.error (transformVmError vm.namespacedName e), [.lookupVm vm.name])
      | .ok configSpec =>
        match updateVm vm configSpec resVm with
        | (some e, t) => (.error (transformVmError vm.namespacedName e), .lookupVm vm.name :: t)
        | (none, t) =>
          match mergeVmStatus vm resVm with
          | .error e => (.error (transformVmError vm.namespacedName e), .lookupVm vm.name :: t)
          | .ok vm2 => (.ok vm2, .lookupVm vm.name :: t)

/-- `VSphereVmProvider.DeleteVirtualMachine`: look the VM up (errors are
translated by `transformVmError`), then run the delete sequence (the
`sequence` package is not part of the sources being verified; its outcome
is the `deleteSeqResult` snapshot field). -/
def providerDeleteVirtualMachine (s : Session) (vm : VirtualMachine) :
    Option GoError × List BackendOp :=
  match lookupVm s vm.name with
  | .error e => (some (transformVmError vm.namespacedName e), [.lookupVm vm.name])
  | .ok resVm =>
    match resVm.deleteSeqResult with
    | some e => (some e, [.lookupVm vm.name, .deleteSeq])
    | none => (none, [.lookupVm vm.name, .deleteSeq])

/-! ## Trace discriminators -/

/-- Whether an operation is the create-from-scratch backend create. -/
def BackendOp.isCreateVm : BackendOp → Bool
  | .createVm _ => true
  | _ => false

/-- Whether an operation belongs to the clone/deploy family (backend clone
or content-library deploy). -/
def BackendOp.isCloneOrDeploy : BackendOp → Bool
  | .cloneVm _ => true
  | .deployOvf _ _ => true
  | _ => false

/-! ## Concrete fixtures used by witnesses and counterexamples -/

/-- A fixed observed remote status. -/
def stFix : VirtualMachineStatus :=
  { phase := "", powerState := "poweredOn", uniqueID := "uuid-1",
    internalId := "ref-1", host := "host-a", vmIp := "10.0.0.1" }

/-- A remote VM whose calls all succeed. -/
def okRemoteVm : RemoteVM :=
  { name := "vm1", referenceValue := "vm-100",
    getNetworkDevices := .ok [], getStatus := .ok stFix,
    reconfigureResult := none, setPowerResult := fun _ => none,
    customizeResult := none, deleteSeqResult := none,
    diskConfigSpecs := .ok [] }

/-- A baseline session snapshot: no default network, no content library,
all direct calls succeed. -/
def baseSession : Session :=
  { networkBackingInfo := none, contentlib := none, extraConfig := none,
    datastoreName := "ds", resourcepoolRef := "rp", folderRef := "folder-1",
    vms := fun _ => okRemoteVm,
    finderVm := fun _ => .found 0,
    createVnic := fun _ _ _ => .ok { key := 0, backing := none },
    waitForVnetIf := fun _ _ _ => .error (.other "ncp unavailable"),
    findLibraryItems := fun _ => .ok [],
    getLibraryItem := fun _ => .error (.other "no such item"),
    fetchOvfProperties := fun _ => .ok [],
    deployLibraryItem := fun _ _ _ => .error (.other "no content library"),
    objectReference := fun _ => .ok okRemoteVm,
    createVmResult := .ok okRemoteVm,
    cloneVmResult := .ok okRemoteVm,
    placementResult := .ok { host := some "host-a", datastore := some "ds-a" } }

/-- A fixed desired spec: no image, no interfaces, no metadata. -/
def specFix : VirtualMachineSpec :=
  { imageName := "", powerState := "", networkInterfaces := [], vmMetadata := none }

/-- A fixed VM resource. -/
def vmFix : VirtualMachine :=
  { name := "vm1", nspace := "ns1", spec := specFix, status := stFix }

/-- A fixed class spec. -/
def classFix : VirtualMachineClassSpec :=
  { hardwareCpus := 2, hardwareMemory := 2147483648, requestsCpu := 0,
    requestsMemory := 0, limitsCpu := 0, limitsMemory := 0 }

/-- A fixed configuration descriptor. -/
def cfgFix : VirtualMachineConfigSpec := { name := "vm1", numCPUs := 2, memoryMB := 2048 }

/-- A remote VM whose reconfigure call fails. -/
def failingReconfigVm : RemoteVM :=
  { okRemoteVm with reconfigureResult := some (.other "reconfigure boom") }

/-- A session whose VM lookup reports not-found. -/
def delNotFoundSession : Session :=
  { baseSession with finderVm := fun _ => .notFound "vm1 not found" }

/-- A session whose VM lookup reports an ambiguous (multiple-found) name. -/
def delMultiSession : Session :=
  { baseSession with finderVm := fun _ => .multipleFound "path resolves to multiple vm1" }

/-- Two existing remote NICs. -/
def twoNicDevices : List VirtualDevice := [{ key := 4000, backing := some 1 }, { key := 4001, backing := some 1 }]

/-- A remote VM with two existing network devices. -/
def twoNicRemoteVm : RemoteVM := { okRemoteVm with getNetworkDevices := .ok twoNicDevices }

/-- A session with a configured default network whose backing resolves to
reference `7`. -/
def defaultNetSession : Session := { baseSession with networkBackingInfo := some (.ok 7) }

/-- A desired spec with one (default-type) network interface. -/
def oneNicSpec : VirtualMachineSpec :=
  { specFix with networkInterfaces := [{ networkName := "net-a", networkType := "" }] }

/-- A VM desiring one network interface. -/
def oneNicVm : VirtualMachine := { vmFix with spec := oneNicSpec }

/-- A desired spec with two (default-type) network interfaces. -/
def twoNicSpec : VirtualMachineSpec :=
  { specFix with networkInterfaces := [{ networkName := "net-a", networkType := "" }, { networkName := "net-b", networkType := "" }] }

/-- A VM desiring two network interfaces. -/
def twoNicVm : VirtualMachine := { vmFix with spec := twoNicSpec }

/-- The default-type interface used for the huge-interface-count input. -/
def ifaceDefault : NetworkInterfaceSpec := { networkName := "net-a", networkType := "" }

/-- A VM desiring 2147483550 (= 2^31 - 98) network interfaces: enough for
the decrementing `int32` temporary key to wrap past the most negative
32-bit integer. -/
def hugeNicVm : VirtualMachine :=
  { vmFix with spec := { specFix with networkInterfaces := List.replicate 2147483550 ifaceDefault } }

/-- The add-changes `deviceSpecsFromVM` builds for `oneNicVm` against
`baseSession`. -/
def oneNicAdds : List DeviceChange :=
  [{ operation := .add, device := { key := -100, backing := none } }]

/-- The add-changes `deviceSpecsFromVM` builds for `twoNicVm` against
`baseSession`. -/
def twoNicAdds : List DeviceChange :=
  [{ operation := .add, device := { key := -100, backing := none } },
   { operation := .add, device := { key := -101, backing := none } }]

/-- A spec naming an unsupported bootstrap-metadata transport. -/
def badTransportSpec : VirtualMachineSpec := { specFix with vmMetadata := some { transport := "CloudInit" } }

/-- A VM whose spec names an unsupported bootstrap-metadata transport. -/
def badTransportVm : VirtualMachine := { vmFix with spec := badTransportSpec }

/-- A content-library session able to resolve and deploy the image
`"img"`. -/
def clSession : Session :=
  { baseSession with
    contentlib := some "cl-1",
    findLibraryItems := fun n => if n = "img" then .ok ["item-1"] else .ok [],
    getLibraryItem := fun i =>
      if i = "item-1" then .ok { id := "uuid-9", name := "img", itemType := "ovf" }
      else .error (.other "no such item"),
    deployLibraryItem := fun _ _ _ => .ok "vm-200",
    objectReference := fun _ => .ok okRemoteVm }

/-- A VM that deploys from the content library while naming an unsupported
bootstrap-metadata transport. -/
def clBadTransportVm : VirtualMachine :=
  { vmFix with spec := { badTransportSpec with imageName := "img" } }

/-- A VM with a non-empty image reference (clone path). -/
def cloneVmFix : VirtualMachine := { vmFix with spec := { specFix with imageName := "src-image" } }

/-- A remote status distinct from `stFix` in every backend-observed
field, with a caller-set phase on the spec side. -/
def stRemote : VirtualMachineStatus :=
  { phase := "phase-from-backend", powerState := "poweredOff", uniqueID := "uuid-2",
    internalId := "ref-2", host := "host-b", vmIp := "10.0.0.2" }

/-- A VM whose status phase was already set by the caller. -/
def phasedVm : VirtualMachine :=
  { vmFix with status := { stFix with phase := "Created" } }

/-- A remote VM reporting `stRemote` as observed status. -/
def statusRemoteVm : RemoteVM := { okRemoteVm with getStatus := .ok stRemote }

/-! ## Theorems -/

/-- `int32wrap` is idempotent across a decrement: decrementing an already
wrapped value and wrapping again agrees with wrapping the decremented
original. -/
theorem int32wrap_wrap_sub_one (k : Int) : int32wrap (int32wrap k - 1) = int32wrap (k - 1) := by
  simp only [int32wrap]
  omega

/-- `int32wrap` fixes values already in the `int32` range. -/
theorem int32wrap_eq_self (k : Int) (h1 : -2147483648 ≤ k) (h2 : k < 2147483648) :
    int32wrap k = k := by
  simp only [int32wrap]
  omega

/-- The edit loop emits one in-place backing edit per existing device when
the backing lookup succeeds. -/
theorem editBackingLoop_ok (b : Nat) :
    ∀ devs : List VirtualDevice,
      editBackingLoop (.ok b) devs =
        .ok (devs.map fun d => { operation := .edit, device := { d with backing := some b } }) := by
  intro devs
  induction devs with
  | nil => rfl
  | cons dev rest ih => simp [editBackingLoop, ih]

/-- The add-device loop, run from any (already wrapped) start key: on
success the emitted changes are all `add`s whose device keys are the
consecutively decremented (32-bit wrapped) keys. -/
theorem deviceSpecsLoop_keys (s : Session) (vm : VirtualMachine) :
    ∀ (ifaces : List NetworkInterfaceSpec) (key : Int) (l : List DeviceChange),
      deviceSpecsLoop s vm (int32wrap key) ifaces = .ok l →
      (l.map fun c => c.device.key) =
        (List.range ifaces.length).map (fun i : Nat => int32wrap (key - (i : Int))) ∧
      ∀ c ∈ l, c.operation = .add := by
  intro ifaces
  induction ifaces with
  | nil =>
    intro key l h
    simp only [deviceSpecsLoop] at h
    obtain rfl : ([] : List DeviceChange) = l := by simpa using h
    simp
  | cons vif rest ih =>
    intro key l h
    unfold deviceSpecsLoop at h
    rw [int32wrap_wrap_sub_one] at h
    cases hnp : getNetworkProviderByType vif.networkType with
    | error e => simp only [hnp] at h; exact Except.noConfusion h
    | ok np =>
      simp only [hnp] at h
      cases hcv : s.createVnic np vm vif with
      | error e => simp only [hcv] at h; exact Except.noConfusion h
      | ok dev =>
        simp only [hcv] at h
        cases hrec : deviceSpecsLoop s vm (int32wrap (key - 1)) rest with
        | error e => simp only [hrec] at h; exact Except.noConfusion h
        | ok tail =>
          simp only [hrec] at h
          injection h with h
          subst h
          obtain ⟨htk, hta⟩ := ih (key - 1) tail hrec
          refine ⟨?_, ?_⟩
          · simp only [List.map_cons, List.length_cons, List.range_succ_eq_map,
              List.map_map, setVnicKey, htk]
            refine congrArg₂ List.cons (by norm_num) ?_
            refine List.map_congr_left fun i _ => ?_
            simp only [Function.comp_apply]
            refine congrArg int32wrap ?_
            push_cast
            ring
          · intro c hc
            rcases List.mem_cons.mp hc with rfl | hc
            · rfl
            · exact hta c hc

/-- The add-device loop succeeds on any interface list whose network types
all resolve and whose vnic creations all succeed (here: default-typed
interfaces against a session whose `createVnic` always succeeds). -/
theorem deviceSpecsLoop_replicate_ok (s : Session) (vm : VirtualMachine)
    (dev0 : VirtualDevice) (iface : NetworkInterfaceSpec)
    (ht : iface.networkType = "")
    (hcv : ∀ np vif, s.createVnic np vm vif = .ok dev0) :
    ∀ (n : Nat) (key : Int), ∃ l,
      deviceSpecsLoop s vm key (List.replicate n iface) = .ok l := by
  intro n
  induction n with
  | zero => intro key; exact ⟨[], rfl⟩
  | succ m ih =>
    intro key
    obtain ⟨tail, htail⟩ := ih (int32wrap (key - 1))
    refine ⟨{ operation := .add, device := setVnicKey dev0 key } :: tail, ?_⟩
    rw [List.replicate_succ]
    unfold deviceSpecsLoop
    rw [ht]
    simp only [show getNetworkProviderByType "" = Except.ok NetworkProviderKind.defaultNet from rfl,
      hcv, htail]

/-- Every operation traced by the create-from-scratch session path is the
backend create or the unconditional power-on; in particular it is neither
a clone/deploy operation nor the clone-path marker. -/
theorem sessionCreate_ops (s : Session) (vm : VirtualMachine)
    (c : VirtualMachineClassSpec) (md : List (String × String)) :
    ∀ op ∈ (sessionCreateVirtualMachine s vm c md).2,
      op.isCloneOrDeploy = false ∧ op ≠ BackendOp.enterCloneVirtualMachine := by
  cases hd : deviceSpecsFromVM s vm with
  | error e => simp [sessionCreateVirtualMachine, hd]
  | ok ds =>
    cases hc : configSpecFromClassSpec s vm.name vm.spec c md ds with
    | error e => simp [sessionCreateVirtualMachine, hd, hc]
    | ok cfg =>
      cases hcr : s.createVmResult with
      | error e =>
        simp [sessionCreateVirtualMachine, createVm, hd, hc, hcr, BackendOp.isCloneOrDeploy]
      | ok resVm =>
        cases hsp : resVm.setPowerResult VirtualMachinePoweredOn with
        | none =>
          simp [sessionCreateVirtualMachine, createVm, hd, hc, hcr, hsp, BackendOp.isCloneOrDeploy]
        | some e =>
          simp [sessionCreateVirtualMachine, createVm, hd, hc, hcr, hsp, BackendOp.isCloneOrDeploy]

/-- Every operation traced by the clone/deploy session path is a lookup,
deploy, reconfigure or clone; in particular it is neither the scratch
backend create nor the scratch-path marker. -/
theorem sessionClone_ops (s : Session) (vm : VirtualMachine)
    (c : VirtualMachineClassSpec) (md : List (String × String)) (profileID : String) :
    ∀ op ∈ (sessionCloneVirtualMachine s vm c md profileID).2,
      op.isCreateVm = false ∧ op ≠ BackendOp.enterCreateFromScratch := by
  cases hlib : s.contentlib with
  | some lib =>
    cases himg : GetVirtualMachineImageFromCL s vm.spec.imageName vm.nspace with
    | error e => simp [sessionCloneVirtualMachine, hlib, himg]
    | ok image =>
      cases hdep : s.deployLibraryItem image.uuid vm.name profileID with
      | error e =>
        simp [sessionCloneVirtualMachine, deployOvf, hlib, himg, hdep, BackendOp.isCreateVm]
      | ok moref =>
        cases hobj : s.objectReference moref with
        | error e =>
          simp [sessionCloneVirtualMachine, deployOvf, hlib, himg, hdep, hobj,
            BackendOp.isCreateVm]
        | ok deployedVm =>
          cases hdc : deviceChangeSpecs s vm deployedVm with
          | error e =>
            simp [sessionCloneVirtualMachine, deployOvf, hlib, himg, hdep, hobj, hdc,
              BackendOp.isCreateVm]
          | ok ds =>
            cases hrc : deployedVm.reconfigureResult with
            | none =>
              simp [sessionCloneVirtualMachine, deployOvf, hlib, himg, hdep, hobj, hdc, hrc,
                BackendOp.isCreateVm]
            | some e =>
              simp [sessionCloneVirtualMachine, deployOvf, hlib, himg, hdep, hobj, hdc, hrc,
                BackendOp.isCreateVm]
  | none =>
    cases hlk : lookupVm s vm.spec.imageName with
    | error e => simp [sessionCloneVirtualMachine, hlib, hlk, BackendOp.isCreateVm]
    | ok resSrcVm =>
      cases hcs : getCloneSpec s vm.name resSrcVm vm c md profileID with
      | error e => simp [sessionCloneVirtualMachine, hlib, hlk, hcs, BackendOp.isCreateVm]
      | ok cloneSpec =>
        cases hclone : s.cloneVmResult with
        | error e =>
          simp [sessionCloneVirtualMachine, cloneVm, hlib, hlk, hcs, hclone,
            BackendOp.isCreateVm]
        | ok resVm =>
          simp [sessionCloneVirtualMachine, cloneVm, hlib, hlk, hcs, hclone,
            BackendOp.isCreateVm]

/-- Every operation traced by the provider's post-create phase (guest
customization, status merge, annotations) is the customize call. -/
theorem providerCreateFinish_ops (s : Session) (vm : VirtualMachine) (resVm : RemoteVM) :
    ∀ op ∈ (providerCreateFinish s vm resVm).2,
      op.isCreateVm = false ∧ op.isCloneOrDeploy = false ∧
      op ≠ BackendOp.enterCreateFromScratch ∧ op ≠ BackendOp.enterCloneVirtualMachine := by
  cases hcust : getCustomizationSpecs s vm.nspace vm.name vm.spec with
  | error e => simp [providerCreateFinish, hcust]
  | ok ospec =>
    cases ospec with
    | none =>
      cases hms : mergeVmStatus vm resVm with
      | error e => simp [providerCreateFinish, hcust, hms]
      | ok vm2 => simp [providerCreateFinish, hcust, hms]
    | some cspec =>
      cases hcz : resVm.customizeResult with
      | some e =>
        simp [providerCreateFinish, hcust, hcz, BackendOp.isCreateVm, BackendOp.isCloneOrDeploy]
      | none =>
        cases hms : mergeVmStatus vm resVm with
        | error e =>
          simp [providerCreateFinish, hcust, hcz, hms, BackendOp.isCreateVm,
            BackendOp.isCloneOrDeploy]
        | ok vm2 =>
          simp [providerCreateFinish, hcust, hcz, hms, BackendOp.isCreateVm,
            BackendOp.isCloneOrDeploy]

/-- The provider create trace decomposes as the path marker followed by
the chosen session path's trace and (possibly) the post-create phase's
trace, with the marker chosen by emptiness of the image name. -/
theorem providerCreate_trace_shape (s : Session) (vm : VirtualMachine)
    (c : VirtualMachineClassSpec) (md : List (String × String)) (profileID : String) :
    (vm.spec.imageName = "" →
      ∃ t2, (providerCreateVirtualMachine s vm c md profileID).2 =
          BackendOp.enterCreateFromScratch :: ((sessionCreateVirtualMachine s vm c md).2 ++ t2) ∧
        (t2 = [] ∨ ∃ resVm, t2 = (providerCreateFinish s vm resVm).2)) ∧
    (vm.spec.imageName ≠ "" →
      ∃ t2, (providerCreateVirtualMachine s vm c md profileID).2 =
          BackendOp.enterCloneVirtualMachine ::
            ((sessionCloneVirtualMachine s vm c md profileID).2 ++ t2) ∧
        (t2 = [] ∨ ∃ resVm, t2 = (providerCreateFinish s vm resVm).2)) := by
  constructor
  · intro h
    unfold providerCreateVirtualMachine
    rw [if_pos h]
    rcases hs : sessionCreateVirtualMachine s vm c md with ⟨r, t⟩
    simp only [hs]
    cases r with
    | error e => exact ⟨[], by simp, Or.inl rfl⟩
    | ok resVm =>
      rcases hf : providerCreateFinish s vm resVm with ⟨r2, t2⟩
      simp only [hf]
      exact ⟨t2, by simp, Or.inr ⟨resVm, by rw [hf]⟩⟩
  · intro h
    unfold providerCreateVirtualMachine
    rw [if_neg h]
    rcases hs : sessionCloneVirtualMachine s vm c md profileID with ⟨r, t⟩
    simp only [hs]
    cases r with
    | error e => exact ⟨[], by simp, Or.inl rfl⟩
    | ok resVm =>
      rcases hf : providerCreateFinish s vm resVm with ⟨r2, t2⟩
      simp only [hf]
      exact ⟨t2, by simp, Or.inr ⟨resVm, by rw [hf]⟩⟩

/-- Claim C2: the create path is selected solely by emptiness of the image
reference — an empty image name invokes the create-from-scratch session
path (marker present) and never the clone/deploy path (marker absent, and
no clone or deploy backend operation ever appears in the trace); a
non-empty image name invokes exactly the clone/deploy path (and no
scratch backend create ever appears in the trace). -/
theorem providerCreate_path_selection (s : Session) (vm : VirtualMachine)
    (c : VirtualMachineClassSpec) (md : List (String × String)) (profileID : String) :
    (vm.spec.imageName = "" →
      BackendOp.enterCreateFromScratch ∈ (providerCreateVirtualMachine s vm c md profileID).2 ∧
      BackendOp.enterCloneVirtualMachine ∉ (providerCreateVirtualMachine s vm c md profileID).2 ∧
      ∀ op ∈ (providerCreateVirtualMachine s vm c md profileID).2,
        op.isCloneOrDeploy = false) ∧
    (vm.spec.imageName ≠ "" →
      BackendOp.enterCloneVirtualMachine ∈ (providerCreateVirtualMachine s vm c md profileID).2 ∧
      BackendOp.enterCreateFromScratch ∉ (providerCreateVirtualMachine s vm c md profileID).2 ∧
      ∀ op ∈ (providerCreateVirtualMachine s vm c md profileID).2,
        op.isCreateVm = false) := by
  obtain ⟨hshape1, hshape2⟩ := providerCreate_trace_shape s vm c md profileID
  constructor
  · intro h
    obtain ⟨t2, ht, ht2⟩ := hshape1 h
    rw [ht]
    have hfin : ∀ op ∈ t2, op.isCloneOrDeploy = false ∧ op ≠ BackendOp.enterCloneVirtualMachine := by
      rcases ht2 with rfl | ⟨resVm, rfl⟩
      · simp
      · intro op hop
        obtain ⟨h1, h2, h3, h4⟩ := providerCreateFinish_ops s vm resVm op hop
        exact ⟨h2, h4⟩
    refine ⟨List.mem_cons_self _ _, ?_, ?_⟩
    · intro hmem
      rcases List.mem_cons.mp hmem with hc | hmem
      · exact BackendOp.noConfusion hc
      · rcases List.mem_append.mp hmem with hmem | hmem
        · exact (sessionCreate_ops s vm c md _ hmem).2 rfl
        · exact (hfin _ hmem).2 rfl
    · intro op hop
      rcases List.mem_cons.mp hop with rfl | hop
      · rfl
      · rcases List.mem_append.mp hop with hop | hop
        · exact (sessionCreate_ops s vm c md op hop).1
        · exact (hfin op hop).1
  · intro h
    obtain ⟨t2, ht, ht2⟩ := hshape2 h
    rw [ht]
    have hfin : ∀ op ∈ t2, op.isCreateVm = false ∧ op ≠ BackendOp.enterCreateFromScratch := by
      rcases ht2 with rfl | ⟨resVm, rfl⟩
      · simp
      · intro op hop
        obtain ⟨h1, h2, h3, h4⟩ := providerCreateFinish_ops s vm resVm op hop
        exact ⟨h1, h3⟩
    refine ⟨List.mem_cons_self _ _, ?_, ?_⟩
    · intro hmem
      rcases List.mem_cons.mp hmem with hc | hmem
      · exact BackendOp.noConfusion hc
      · rcases List.mem_append.mp hmem with hmem | hmem
        · exact (sessionClone_ops s vm c md profileID _ hmem).2 rfl
        · exact (hfin _ hmem).2 rfl
    · intro op hop
      rcases List.mem_cons.mp hop with rfl | hop
      · rfl
      · rcases List.mem_append.mp hop with hop | hop
        · exact (sessionClone_ops s vm c md profileID op hop).1
        · exact (hfin op hop).1

/-- Claim C2 witness: a concrete empty-image spec takes the scratch path
and a concrete non-empty-image spec takes the clone path. -/
theorem providerCreate_path_selection_witness :
    (BackendOp.enterCreateFromScratch ∈
        (providerCreateVirtualMachine baseSession vmFix classFix [] "").2 ∧
      BackendOp.enterCloneVirtualMachine ∉
        (providerCreateVirtualMachine baseSession vmFix classFix [] "").2 ∧
      ∀ op ∈ (providerCreateVirtualMachine baseSession vmFix classFix [] "").2,
        op.isCloneOrDeploy = false) ∧
    (BackendOp.enterCloneVirtualMachine ∈
        (providerCreateVirtualMachine baseSession cloneVmFix classFix [] "").2 ∧
      BackendOp.enterCreateFromScratch ∉
        (providerCreateVirtualMachine baseSession cloneVmFix classFix [] "").2 ∧
      ∀ op ∈ (providerCreateVirtualMachine baseSession cloneVmFix classFix [] "").2,
        op.isCreateVm = false) :=
  ⟨(providerCreate_path_selection baseSession vmFix classFix [] "").1 rfl,
   (providerCreate_path_selection baseSession cloneVmFix classFix [] "").2 (by decide)⟩

/-- Claim C7 (amended): whenever the configuration descriptor is built —
the create-from-scratch and update flows, and the full-clone flow, which
builds it inside `getCloneSpec` — a bootstrap-metadata transport other
than `"ExtraConfig"` yields an unsupported-metadata-transport error, no
descriptor is produced, and no VM-mutating backend operation is attempted
in that flow: the scratch-create trace is empty, the update trace holds
only the VM lookup, and the full-clone trace (no content library
configured) holds only the image lookup — no clone, reconfigure or
power operation.  The content-library deploy flow, however, never builds
the descriptor and is not covered (see the counterexample). -/
theorem configSpec_unsupported_transport (s : Session) (vm : VirtualMachine)
    (cls : VirtualMachineClassSpec) (md : List (String × String))
    (t : VmMetadataSpec) (h1 : vm.spec.vmMetadata = some t)
    (h2 : t.transport ≠ "ExtraConfig") :
    (∀ name devs, configSpecFromClassSpec s name vm.spec cls md devs =
      .error (.other ("unsupported metadata transport " ++ t.transport))) ∧
    ((∃ e, (sessionCreateVirtualMachine s vm cls md).1 = .error e) ∧
      (sessionCreateVirtualMachine s vm cls md).2 = []) ∧
    ((∃ e, (providerUpdateVirtualMachine s vm cls md).1 = .error e) ∧
      (providerUpdateVirtualMachine s vm cls md).2 = [.lookupVm vm.name]) ∧
    (∀ profileID, s.contentlib = none →
      (∃ e, (sessionCloneVirtualMachine s vm cls md profileID).1 = .error e) ∧
      (sessionCloneVirtualMachine s vm cls md profileID).2 =
        [.lookupVm vm.spec.imageName]) := by
  have hcfg : ∀ name devs, configSpecFromClassSpec s name vm.spec cls md devs =
      .error (.other ("unsupported metadata transport " ++ t.transport)) := by
    intro name devs
    unfold configSpecFromClassSpec
    rw [h1]
    simp only [if_neg h2]
  refine ⟨hcfg, ?_, ?_, ?_⟩
  · cases hd : deviceSpecsFromVM s vm with
    | error e => exact ⟨⟨e, by simp [sessionCreateVirtualMachine, hd]⟩,
        by simp [sessionCreateVirtualMachine, hd]⟩
    | ok ds => exact ⟨⟨_, by simp [sessionCreateVirtualMachine, hd, hcfg]; rfl⟩,
        by simp [sessionCreateVirtualMachine, hd, hcfg]⟩
  · cases hlk : lookupVm s vm.name with
    | error e => exact ⟨⟨_, by simp [providerUpdateVirtualMachine, hlk]; rfl⟩,
        by simp [providerUpdateVirtualMachine, hlk]⟩
    | ok resVm =>
      cases hdc : deviceChangeSpecs s vm resVm with
      | error e => exact ⟨⟨_, by simp [providerUpdateVirtualMachine, hlk, hdc]; rfl⟩,
          by simp [providerUpdateVirtualMachine, hlk, hdc]⟩
      | ok ds => exact ⟨⟨_, by simp [providerUpdateVirtualMachine, hlk, hdc, hcfg]; rfl⟩,
          by simp [providerUpdateVirtualMachine, hlk, hdc, hcfg]⟩
  · intro profileID hlib
    cases hlk : lookupVm s vm.spec.imageName with
    | error e =>
      exact ⟨⟨e, by simp [sessionCloneVirtualMachine, hlib, hlk]⟩,
        by simp [sessionCloneVirtualMachine, hlib, hlk]⟩
    | ok resSrcVm =>
      have hgc : ∃ e2, getCloneSpec s vm.name resSrcVm vm cls md profileID = .error e2 := by
        cases hpsc : processStorageClass resSrcVm profileID with
        | error e2 => exact ⟨e2, by simp [getCloneSpec, hpsc]⟩
        | ok p =>
          obtain ⟨vdcs, vmProfile⟩ := p
          cases hdc : deviceChangeSpecs s vm resSrcVm with
          | error e2 => exact ⟨e2, by simp [getCloneSpec, hpsc, hdc]⟩
          | ok ds => exact ⟨_, by simp [getCloneSpec, hpsc, hdc, hcfg]; rfl⟩
      obtain ⟨e2, hgc⟩ := hgc
      exact ⟨⟨_, by simp [sessionCloneVirtualMachine, hlib, hlk, hgc]; rfl⟩,
        by simp [sessionCloneVirtualMachine, hlib, hlk, hgc]⟩

/-- Claim C7 witness: a concrete spec naming the `"CloudInit"` transport
is rejected at descriptor-build time in the scratch-create, update and
full-clone flows. -/
theorem configSpec_unsupported_transport_witness :
    (∀ name devs, configSpecFromClassSpec baseSession name badTransportVm.spec classFix [] devs =
      .error (.other ("unsupported metadata transport " ++ "CloudInit"))) ∧
    ((∃ e, (sessionCreateVirtualMachine baseSession badTransportVm classFix []).1 = .error e) ∧
      (sessionCreateVirtualMachine baseSession badTransportVm classFix []).2 = []) ∧
    ((∃ e, (providerUpdateVirtualMachine baseSession badTransportVm classFix []).1 = .error e) ∧
      (providerUpdateVirtualMachine baseSession badTransportVm classFix []).2 =
        [.lookupVm badTransportVm.name]) ∧
    ((∃ e, (sessionCloneVirtualMachine baseSession badTransportVm classFix [] "").1 = .error e) ∧
      (sessionCloneVirtualMachine baseSession badTransportVm classFix [] "").2 =
        [.lookupVm badTransportVm.spec.imageName]) :=
  have h := configSpec_unsupported_transport baseSession badTransportVm classFix []
    { transport := "CloudInit" } rfl (by decide)
  ⟨h.1, h.2.1, h.2.2.1, h.2.2.2 "" rfl⟩

/-- Claim C7 counterexample: with a configured content library, a spec
whose metadata names the unsupported `"CloudInit"` transport is deployed
anyway — `configSpecFromClassSpec` is never invoked on that path, the
create returns success, and the deploy and reconfigure backend operations
are attempted for that spec. -/
theorem providerCreate_clPath_ignores_transport :
    clBadTransportVm.spec.vmMetadata = some { transport := "CloudInit" } ∧
    (∃ vm2, (providerCreateVirtualMachine clSession clBadTransportVm classFix [] "").1 =
      .ok vm2) ∧
    BackendOp.deployOvf "uuid-9" "vm1" ∈
      (providerCreateVirtualMachine clSession clBadTransportVm classFix [] "").2 ∧
    BackendOp.reconfigure ∈
      (providerCreateVirtualMachine clSession clBadTransportVm classFix [] "").2 := by
  have ht : (providerCreateVirtualMachine clSession clBadTransportVm classFix [] "").2 =
      [.enterCloneVirtualMachine, .deployOvf "uuid-9" "vm1", .reconfigure] := rfl
  refine ⟨rfl, ⟨_, rfl⟩, ?_, ?_⟩ <;> rw [ht] <;> simp

/-- Claim C4: with zero desired interfaces against an existing remote VM,
`deviceChangeSpecs` emits exactly one in-place backing `edit` per existing
network device when a default network is configured (and zero add or
remove changes), and no changes at all when none is configured. -/
theorem deviceChangeSpecs_no_interfaces (s : Session) (vm : VirtualMachine)
    (resVm : RemoteVM) (devs : List VirtualDevice)
    (hif : vm.spec.networkInterfaces = [])
    (hdev : resVm.getNetworkDevices = .ok devs) :
    (∀ b, s.networkBackingInfo = some (.ok b) →
      deviceChangeSpecs s vm resVm =
        .ok (devs.map fun d => { operation := .edit, device := { d with backing := some b } }) ∧
      ∃ l, deviceChangeSpecs s vm resVm = .ok l ∧
        (l.map fun c => c.operation) = List.replicate devs.length DeviceOp.edit) ∧
    (s.networkBackingInfo = none → deviceChangeSpecs s vm resVm = .ok []) := by
  constructor
  · intro b hnet
    have heq : deviceChangeSpecs s vm resVm =
        .ok (devs.map fun d => { operation := .edit, device := { d with backing := some b } }) := by
      unfold deviceChangeSpecs
      rw [hdev]
      simp only [hif, List.length_nil, if_pos rfl, hnet]
      exact editBackingLoop_ok b devs
    refine ⟨heq, _, heq, ?_⟩
    refine List.eq_replicate_iff.mpr ⟨by simp, fun x hx => ?_⟩
    obtain ⟨c, hc, rfl⟩ := List.mem_map.mp hx
    obtain ⟨d, hd, rfl⟩ := List.mem_map.mp hc
    rfl
  · intro hnet
    unfold deviceChangeSpecs
    rw [hdev]
    simp only [hif, List.length_nil, if_pos rfl, hnet]
    simp

/-- Claim C4 witness: two existing NICs, zero desired interfaces — two
edits with the configured default network, none without it. -/
theorem deviceChangeSpecs_no_interfaces_witness :
    (deviceChangeSpecs defaultNetSession vmFix twoNicRemoteVm =
      .ok (twoNicDevices.map fun d => { operation := .edit, device := { d with backing := some 7 } }) ∧
     ∃ l, deviceChangeSpecs defaultNetSession vmFix twoNicRemoteVm = .ok l ∧
       (l.map fun c => c.operation) = List.replicate twoNicDevices.length DeviceOp.edit) ∧
    deviceChangeSpecs baseSession vmFix twoNicRemoteVm = .ok [] :=
  ⟨(deviceChangeSpecs_no_interfaces defaultNetSession vmFix twoNicRemoteVm twoNicDevices rfl rfl).1 7 rfl,
   (deviceChangeSpecs_no_interfaces baseSession vmFix twoNicRemoteVm twoNicDevices rfl rfl).2 rfl⟩

/-- Claim C5: with at least one desired interface, `deviceChangeSpecs`
emits one `remove` per existing network device followed by the newly built
`add` set — one `add` per desired interface (full replace). -/
theorem deviceChangeSpecs_full_replace (s : Session) (vm : VirtualMachine)
    (resVm : RemoteVM) (devs : List VirtualDevice) (adds : List DeviceChange)
    (hif : vm.spec.networkInterfaces ≠ [])
    (hdev : resVm.getNetworkDevices = .ok devs)
    (hadd : deviceSpecsFromVM s vm = .ok adds) :
    deviceChangeSpecs s vm resVm =
      .ok ((devs.map fun d => { operation := .remove, device := d }) ++ adds) ∧
    adds.length = vm.spec.networkInterfaces.length ∧
    ∀ c ∈ adds, c.operation = .add := by
  have hlen : vm.spec.networkInterfaces.length ≠ 0 := by
    simpa [List.length_eq_zero] using hif
  have hkeys := deviceSpecsLoop_keys s vm vm.spec.networkInterfaces (-100) adds
    (by rw [show int32wrap (-100) = (-100 : Int) from by decide]; exact hadd)
  refine ⟨?_, ?_, hkeys.2⟩
  · unfold deviceChangeSpecs
    rw [hdev]
    simp only [if_neg hlen, hadd]
  · have := congrArg List.length hkeys.1
    simpa using this

/-- Claim C5 witness: two existing NICs and one desired interface — two
removes followed by one add. -/
theorem deviceChangeSpecs_full_replace_witness :
    deviceChangeSpecs baseSession oneNicVm twoNicRemoteVm =
      .ok ((twoNicDevices.map fun d => { operation := .remove, device := d }) ++ oneNicAdds) ∧
    oneNicAdds.length = oneNicVm.spec.networkInterfaces.length ∧
    ∀ c ∈ oneNicAdds, c.operation = .add :=
  deviceChangeSpecs_full_replace baseSession oneNicVm twoNicRemoteVm twoNicDevices oneNicAdds
    (by decide) rfl rfl

/-- Claim C9 counterexample: with 2147483550 desired interfaces the
decrementing `int32` temporary key wraps past the most negative 32-bit
integer, and the descriptor contains the positive device key 2147483647 —
so the newly assigned keys are not always negative. -/
theorem deviceSpecsFromVM_key_wraps_positive :
    ∃ l, deviceSpecsFromVM baseSession hugeNicVm = .ok l ∧
      (2147483647 : Int) ∈ (l.map fun c => c.device.key) ∧
      ¬ (∀ k ∈ l.map fun c => c.device.key, k < 0) := by
  obtain ⟨l, hl⟩ := deviceSpecsLoop_replicate_ok baseSession hugeNicVm
    { key := 0, backing := none } ifaceDefault rfl (fun _ _ => rfl) 2147483550 (-100)
  have hl2 : deviceSpecsFromVM baseSession hugeNicVm = .ok l := hl
  have hkeys := deviceSpecsLoop_keys baseSession hugeNicVm
    (List.replicate 2147483550 ifaceDefault) (-100)
    l (by rw [show int32wrap (-100) = (-100 : Int) from by decide]; exact hl)
  have hmem : (2147483647 : Int) ∈ (l.map fun c => c.device.key) := by
    rw [hkeys.1]
    refine List.mem_map.mpr ⟨2147483549, ?_, by decide⟩
    simp only [List.length_replicate]
    exact List.mem_range.mpr (by norm_num)
  exact ⟨l, hl2, hmem, fun hall => absurd (hall _ hmem) (by decide)⟩

/-- Claim C9 (amended): the add-device changes assign device keys starting
at -100 and decreasing by one per interface with 32-bit wraparound; for
every descriptor with at most 2147483549 (= 2^31 - 99) interfaces — in
particular every realistic one — all newly assigned keys are unique
negative integers. -/
theorem deviceSpecsFromVM_unique_negative_keys (s : Session) (vm : VirtualMachine)
    (l : List DeviceChange) (h : deviceSpecsFromVM s vm = .ok l) :
    (l.map fun c => c.device.key) =
      (List.range vm.spec.networkInterfaces.length).map
        (fun i : Nat => int32wrap (-100 - (i : Int))) ∧
    (∀ c ∈ l, c.operation = .add) ∧
    (vm.spec.networkInterfaces.length ≤ 2147483549 →
      (∀ k ∈ l.map fun c => c.device.key, k < 0) ∧
      (l.map fun c => c.device.key).Nodup) := by
  unfold deviceSpecsFromVM at h
  rw [show (-100 : Int) = int32wrap (-100) from by decide] at h
  obtain ⟨hk, ha⟩ := deviceSpecsLoop_keys s vm vm.spec.networkInterfaces (-100) l h
  refine ⟨hk, ha, ?_⟩
  intro hn
  constructor
  · intro k hkm
    rw [hk] at hkm
    obtain ⟨i, hi, rfl⟩ := List.mem_map.mp hkm
    have hilt : i < vm.spec.networkInterfaces.length := List.mem_range.mp hi
    rw [int32wrap_eq_self _ (by omega) (by omega)]
    omega
  · rw [hk]
    refine List.Nodup.map_on ?_ (List.nodup_range _)
    intro x hx y hy hf
    have hx2 : x < vm.spec.networkInterfaces.length := List.mem_range.mp hx
    have hy2 : y < vm.spec.networkInterfaces.length := List.mem_range.mp hy
    rw [int32wrap_eq_self _ (by omega) (by omega),
      int32wrap_eq_self _ (by omega) (by omega)] at hf
    omega

/-- Claim C9 witness: two desired interfaces get the distinct negative
keys -100 and -101. -/
theorem deviceSpecsFromVM_unique_negative_keys_witness :
    (∀ k ∈ twoNicAdds.map fun c => c.device.key, k < 0) ∧
    (twoNicAdds.map fun c => c.device.key).Nodup :=
  (deviceSpecsFromVM_unique_negative_keys baseSession twoNicVm twoNicAdds rfl).2.2 (by decide)

/-- Claim C3 counterexample: at a quantity of `2^53 + 1` bytes the code's
float64 pipeline yields `2^33` MB while the exact ceiling of the byte
value divided by `2^20` is `2^33 + 1`, so `memoryQuantityToMb` does not
equal the exact ceiling for every quantity. -/
theorem memoryQuantityToMb_not_exact_ceiling :
    memoryQuantityToMb 9007199254740993 = 8589934592 ∧
    ceilDivInt 9007199254740993 1048576 = 8589934593 ∧
    memoryQuantityToMb 9007199254740993 ≠ ceilDivInt 9007199254740993 1048576 := by
  refine ⟨by decide, by decide, by decide⟩

/-- Claim C3 (amended): for every memory quantity whose byte value has
magnitude at most `2^53` (where the `float64` conversion is exact — this
covers all realistic quantities), `memoryQuantityToMb` equals the exact
ceiling of the byte value divided by `2^20`; in particular a
1,500,000,000-byte quantity yields 1,431 MB, not 1,430. -/
theorem memoryQuantityToMb_exact_ceiling_small :
    (∀ v : Int, v.natAbs ≤ 9007199254740992 →
      memoryQuantityToMb v = ceilDivInt v 1048576) ∧
    memoryQuantityToMb 1500000000 = 1431 ∧ memoryQuantityToMb 1500000000 ≠ 1430 := by
  refine ⟨?_, by decide, by decide⟩
  intro v h
  unfold memoryQuantityToMb round53Int
  rw [if_pos h]

/-- Claim C3 witness: the amended theorem applied at the spec's exemplar
quantity. -/
theorem memoryQuantityToMb_exact_ceiling_small_witness :
    memoryQuantityToMb 1500000000 = ceilDivInt 1500000000 1048576 :=
  memoryQuantityToMb_exact_ceiling_small.1 1500000000 (by decide)

/-- Claim C6: if the reconfigure step fails, `updateVm` returns exactly
that error and no power-state transition is ever attempted. -/
theorem updateVm_reconfigure_short_circuits (vm : VirtualMachine)
    (configSpec : VirtualMachineConfigSpec) (resVm : RemoteVM) (e : GoError)
    (h : resVm.reconfigureResult = some e) :
    (updateVm vm configSpec resVm).1 = some e ∧
    ∀ st, BackendOp.setPowerState st ∉ (updateVm vm configSpec resVm).2 := by
  unfold updateVm reconfigureVm
  rw [h]
  exact ⟨rfl, by intro st hmem; simp at hmem⟩

/-- Claim C6 witness: a failing reconfigure on a concrete VM. -/
theorem updateVm_reconfigure_short_circuits_witness :
    (updateVm vmFix cfgFix failingReconfigVm).1 = some (.other "reconfigure boom") ∧
    ∀ st, BackendOp.setPowerState st ∉ (updateVm vmFix cfgFix failingReconfigVm).2 :=
  updateVm_reconfigure_short_circuits vmFix cfgFix failingReconfigVm (.other "reconfigure boom") rfl

/-- Claim C10: when the desired power state is the empty string,
`updatePowerState` applies the powered-on state (the trace records exactly
one power transition, to `VirtualMachinePoweredOn`). -/
theorem updatePowerState_empty_defaults_on (vm : VirtualMachine) (resVm : RemoteVM)
    (h : vm.spec.powerState = "") :
    (updatePowerState vm resVm).2 = [BackendOp.setPowerState VirtualMachinePoweredOn] := by
  unfold updatePowerState
  rw [h]
  cases hsp : resVm.setPowerResult VirtualMachinePoweredOn <;> simp [hsp]

/-- Claim C10 witness: the default-to-powered-on behaviour on a concrete
VM whose spec leaves the power state empty. -/
theorem updatePowerState_empty_defaults_on_witness :
    (updatePowerState vmFix okRemoteVm).2 = [BackendOp.setPowerState VirtualMachinePoweredOn] :=
  updatePowerState_empty_defaults_on vmFix okRemoteVm rfl

/-- Claim C8: a successful status merge keeps the phase already present in
the spec's status and replaces every backend-observed field (power state,
unique identifier, internal reference, host, address) with the remote VM's
reported values. -/
theorem mergeVmStatus_preserves_phase (vm : VirtualMachine) (resVm : RemoteVM)
    (st : VirtualMachineStatus) (h : resVm.getStatus = .ok st) :
    ∃ vm2, mergeVmStatus vm resVm = .ok vm2 ∧
      vm2.status.phase = vm.status.phase ∧
      vm2.status.powerState = st.powerState ∧
      vm2.status.uniqueID = st.uniqueID ∧
      vm2.status.internalId = st.internalId ∧
      vm2.status.host = st.host ∧
      vm2.status.vmIp = st.vmIp := by
  unfold mergeVmStatus
  rw [h]
  exact ⟨_, rfl, rfl, rfl, rfl, rfl, rfl, rfl⟩

/-- Claim C8 witness: merging a concrete remote status into a VM with a
caller-set phase. -/
theorem mergeVmStatus_preserves_phase_witness :
    ∃ vm2, mergeVmStatus phasedVm statusRemoteVm = .ok vm2 ∧
      vm2.status.phase = phasedVm.status.phase ∧
      vm2.status.powerState = stRemote.powerState ∧
      vm2.status.uniqueID = stRemote.uniqueID ∧
      vm2.status.internalId = stRemote.internalId ∧
      vm2.status.host = stRemote.host ∧
      vm2.status.vmIp = stRemote.vmIp :=
  mergeVmStatus_preserves_phase phasedVm statusRemoteVm stRemote rfl

/-- Claim C1 counterexample: when the VM lookup reports not-found, the
provider's delete returns a (typed) error rather than no error, so the
deletion is not simply "treated as successful" at this layer. -/
theorem providerDelete_notFound_returns_error :
    (providerDeleteVirtualMachine delNotFoundSession vmFix).1 =
      some (.k8sNotFound "VirtualMachine" "ns1/vm1") ∧
    (providerDeleteVirtualMachine delNotFoundSession vmFix).1 ≠ none := by
  have h : (providerDeleteVirtualMachine delNotFoundSession vmFix).1 =
      some (.k8sNotFound "VirtualMachine" "ns1/vm1") := rfl
  exact ⟨h, by rw [h]; exact fun hc => Option.noConfusion hc⟩

/-- Claim C1 (amended): a not-found lookup during delete surfaces as the
typed Kubernetes not-found domain error (carrying kind and namespaced
name) — allowing callers to treat it as success — while a multiple-found
lookup error surfaces unchanged; neither collapses to a nil error inside
`Provider.DeleteVirtualMachine` itself. -/
theorem providerDelete_typed_errors (s : Session) (vm : VirtualMachine) (m : String) :
    (s.finderVm vm.name = .notFound m →
      (providerDeleteVirtualMachine s vm).1 =
        some (.k8sNotFound internalVirtualMachineKind vm.namespacedName)) ∧
    (s.finderVm vm.name = .multipleFound m →
      (providerDeleteVirtualMachine s vm).1 = some (.multipleFound m)) := by
  constructor <;> intro h <;>
    simp [providerDeleteVirtualMachine, lookupVm, h, transformVmError, transformError]

/-- Claim C1 witness: concrete not-found and multiple-found lookups. -/
theorem providerDelete_typed_errors_witness :
    (providerDeleteVirtualMachine delNotFoundSession vmFix).1 =
      some (.k8sNotFound internalVirtualMachineKind vmFix.namespacedName) ∧
    (providerDeleteVirtualMachine delMultiSession vmFix).1 =
      some (.multipleFound "path resolves to multiple vm1") :=
  ⟨(providerDelete_typed_errors delNotFoundSession vmFix "vm1 not found").1 rfl,
   (providerDelete_typed_errors delMultiSession vmFix "path resolves to multiple vm1").2 rfl⟩

end VmOp
